import Mathlib

/-! Lock-contention tracer (src/lockTracer.cpp).

A shallow embedding of `LockTracer` from `src/lockTracer.cpp`.  The static
members of the class and the part of the JVM they act on are one explicit
`State`; the JVM facilities the code only queries (symbol lookup, class lookup,
class signatures, the system timer) are the fields of an environment `JVM`.
Every function of the source file is a Lean function of the same name that
threads the state through in source order.
-/

namespace LockTracer

/-! ## Machine integers and C strings -/

/-- A `jlong`: a signed 64-bit integer, held as an `Int`. -/
abbrev jlong := Int

/-- Two's-complement reduction of an integer to the range of a `jlong`. -/
def wrap64 (x : Int) : jlong := (x + 2 ^ 63) % 2 ^ 64 - 2 ^ 63

/-- Subtraction of two `jlong` values as the machine performs it. -/
def jlong_sub (a b : jlong) : jlong := wrap64 (a - b)

/-- The bytes of an ASCII string literal, without the terminating NUL. -/
def cstr (s : String) : List Nat := s.toList.map Char.toNat

/-- The C library function `strncmp`.  A C string is the list of its bytes; the
byte read past the end of the list is the terminating NUL (0).  At most `n`
bytes are compared, and the comparison stops at the first difference or at a
NUL. -/
def strncmp : List Nat → List Nat → Nat → Int
  | _, _, 0 => 0
  | s1, s2, n + 1 =>
    let c1 := s1.headD 0
    let c2 := s2.headD 0
    if c1 ≠ c2 then (c1 : Int) - (c2 : Int)
    else if c1 = 0 then 0
    else strncmp s1.tail s2.tail n

/-! ## Handles and function pointers -/

abbrev jthread := Nat
abbrev jobject := Nat
abbrev jclass := Nat
abbrev jmethodID := Nat

/-- A `VMSymbol*`: the address of a symbol in the JVM's symbol table. -/
abbrev VMSymbol := Nat

/-- A value of type `UnsafeParkFunc`, a pointer to a native implementation of
`Unsafe.park`: either the profiler's own `LockTracer::UnsafeParkTrap` or code at
some other address. -/
inductive UnsafeParkFunc
  | UnsafeParkTrap
  | code (addr : Nat)
  deriving DecidableEq, Repr

/-- The JVMTI events whose notification mode this repository sets
(src/vmEntry.cpp lines 81-87, src/lockTracer.cpp lines 37-38 and 67-68). -/
inductive jvmtiEvent
  | JVMTI_EVENT_VM_INIT
  | JVMTI_EVENT_VM_DEATH
  | JVMTI_EVENT_CLASS_LOAD
  | JVMTI_EVENT_CLASS_PREPARE
  | JVMTI_EVENT_COMPILED_METHOD_LOAD
  | JVMTI_EVENT_COMPILED_METHOD_UNLOAD
  | JVMTI_EVENT_DYNAMIC_CODE_GENERATED
  | JVMTI_EVENT_MONITOR_CONTENDED_ENTER
  | JVMTI_EVENT_MONITOR_CONTENDED_ENTERED
  deriving DecidableEq, Repr

/-- Modelled from the spec: the header that declares `BCI_SYMBOL` is not under
src/; the spec (section 6) calls it the kind SYMBOLIC of a recorded sample, a
name-keyed pseudo-frame as opposed to a real code address. -/
inductive EventType
  | BCI_SYMBOL
  | BCI_OTHER (bci : Int)
  deriving DecidableEq, Repr

/-- Modelled from the spec: the class `Error` is declared outside src/;
`start()` only ever returns `Error::OK`. -/
inductive Error
  | OK
  | message (text : String)
  deriving DecidableEq, Repr

/-- Modelled from the spec: the parsed agent arguments are declared outside
src/ (argument parsing is an external collaborator); `start()` never reads
them. -/
structure Arguments where
  deriving DecidableEq, Repr

/-- The calls leaving `LockTracer` whose number and order matter: reads of the
system timer, JNI calls that load classes, register natives or clear
exceptions, invocations of a native park implementation, and calls of
`Profiler::recordSample`. -/
inductive Call
  | GetTime (value : jlong)
  | FindClass (name : String)
  | RegisterNatives (cls : jclass) (entry : UnsafeParkFunc)
  | ExceptionClear
  | park (f : UnsafeParkFunc) (instance_ : jobject) (isAbsolute : Bool) (time : jlong)
  | recordSample (ucontext : Option Nat) (counter : jlong) (event_type : EventType)
      (event : Option VMSymbol)
  deriving DecidableEq, Repr

/-- The ways a call of `UnsafeParkTrap` can fail to return. -/
inductive Fault
  | null_call
  | unbounded_recursion
  deriving DecidableEq, Repr

/-! ## The environment and the state -/

/-- What the code queries from the running JVM and from the profiler's other
modules.  `clock k` is the value the `k`-th call of `GetTime` returns; a
failing JVMTI call and a NULL result are `none`. -/
structure JVM where
  clock : Nat → jlong
  GetCurrentThread : Option jthread
  CallStaticObjectMethod : Option jclass → Option jmethodID → jthread → Option jobject
  GetObjectClass : jobject → jclass
  GetClassSignature : jclass → Option (List Nat)
  FindClass : String → Option jclass
  GetStaticMethodID : Option jclass → String → String → Option jmethodID
  findSymbol : String → Option UnsafeParkFunc
  VMStructs_available : Bool
  VMStructs_hasPermGen : Bool
  klass_name : jclass → VMSymbol

/-- The static members of `LockTracer` (lines 23-27) and the mutable JVM state
the code acts on: the number of timer reads so far, the JVMTI tag of each
thread (0 is "not tagged"), the notification mode of each event, the native
implementation registered for `park(ZJ)V` of each class, and the trace of
calls made so far. -/
structure State where
  _start_time : jlong
  _LockSupport : Option jclass
  _getBlocker : Option jmethodID
  _original_Unsafe_Park : Option UnsafeParkFunc
  _supports_lock_names : Bool
  reads : Nat
  tags : jthread → jlong
  eventMode : jvmtiEvent → Bool
  natives : jclass → UnsafeParkFunc
  trace : List Call

/-- The state at program start: the statics hold their initialisers of lines
23-27, no thread is tagged, the monitor events are off, and the JVM has its own
implementations `natives` registered. -/
def State.init (natives : jclass → UnsafeParkFunc) (eventMode : jvmtiEvent → Bool) : State where
  _start_time := 0
  _LockSupport := none
  _getBlocker := none
  _original_Unsafe_Park := none
  _supports_lock_names := false
  reads := 0
  tags := fun _ => 0
  eventMode := eventMode
  natives := natives
  trace := []

/-! ## JVMTI, JNI and profiler calls -/

/-- The call `jvmti->GetTime(&t)`: the next value of the system timer. -/
def GetTime (vm : JVM) (s : State) : jlong × State :=
  (vm.clock s.reads,
   { s with reads := s.reads + 1, trace := s.trace ++ [Call.GetTime (vm.clock s.reads)] })

/-- The call `jvmti->SetTag(thread, tag)`. -/
def SetTag (s : State) (thread : jthread) (tag : jlong) : State :=
  { s with tags := Function.update s.tags thread tag }

/-- The call `jvmti->GetTag(thread, &tag)`: 0 when the thread is not tagged. -/
def GetTag (s : State) (thread : jthread) : jlong := s.tags thread

/-- The call `jvmti->SetEventNotificationMode(mode, event, NULL)`. -/
def SetEventNotificationMode (s : State) (mode : Bool) (event : jvmtiEvent) : State :=
  { s with eventMode := Function.update s.eventMode event mode }

/-- The call `env->FindClass(name)`. -/
def FindClass (vm : JVM) (s : State) (name : String) : Option jclass × State :=
  (vm.FindClass name, { s with trace := s.trace ++ [Call.FindClass name] })

/-- The call `env->RegisterNatives(cls, &unsafe_park, 1)` for the method
`park(ZJ)V`. -/
def RegisterNatives (s : State) (cls : jclass) (entry : UnsafeParkFunc) : State :=
  { s with natives := Function.update s.natives cls entry,
           trace := s.trace ++ [Call.RegisterNatives cls entry] }

/-- The call `env->ExceptionClear()`. -/
def ExceptionClear (s : State) : State :=
  { s with trace := s.trace ++ [Call.ExceptionClear] }

/-- Modelled from the spec: `Profiler::recordSample` is defined outside src/;
the spec (section 6) gives its shape as
`recordSample(context, duration, kind, payload)`.  The call is recorded in the
trace. -/
def recordSample (s : State) (ucontext : Option Nat) (counter : jlong)
    (event_type : EventType) (event : Option VMSymbol) : State :=
  { s with trace := s.trace ++ [Call.recordSample ucontext counter event_type event] }

/-- A call through a pointer to a native park implementation that is not the
trap: the JVM's own code runs, which the trace records. -/
def callPark (s : State) (f : UnsafeParkFunc) (instance_ : jobject) (isAbsolute : Bool)
    (time : jlong) : State :=
  { s with trace := s.trace ++ [Call.park f instance_ isAbsolute time] }

/-! ## src/lockTracer.cpp -/

/-- Lines 148-161, `LockTracer::bindUnsafePark`. -/
def bindUnsafePark (vm : JVM) (s : State) (entry : UnsafeParkFunc) : State :=
  -- Try JDK 9+ package first, then fallback to JDK 8 package
  let (holder, s) := FindClass vm s "jdk/internal/misc/Unsafe"
  let (holder, s) :=
    if holder = none then FindClass vm s "sun/misc/Unsafe" else (holder, s)
  let s :=
    match holder with
    | some cls => RegisterNatives s cls entry
    | none => s
  ExceptionClear s

/-- Lines 29-62, `LockTracer::start`. -/
def start (vm : JVM) (s : State) (_args : Arguments) : Error × State :=
  let s : State := { s with _supports_lock_names := vm.VMStructs_available && !vm.VMStructs_hasPermGen }
  -- Enable Java Monitor events
  let s := SetEventNotificationMode s true jvmtiEvent.JVMTI_EVENT_MONITOR_CONTENDED_ENTER
  let s := SetEventNotificationMode s true jvmtiEvent.JVMTI_EVENT_MONITOR_CONTENDED_ENTERED
  let (t, s) := GetTime vm s
  let s : State := { s with _start_time := t }
  let s :=
    if s._getBlocker = none then
      let (c, s) := FindClass vm s "java/util/concurrent/locks/LockSupport"
      let s : State := { s with _LockSupport := c }
      { s with _getBlocker :=
          vm.GetStaticMethodID s._LockSupport "getBlocker" "(Ljava/lang/Thread;)Ljava/lang/Object;" }
    else s
  let s :=
    if s._original_Unsafe_Park = none then
      let s : State := { s with _original_Unsafe_Park := vm.findSymbol "Unsafe_Park" }
      if s._original_Unsafe_Park = none then
        -- In some macOS builds of JDK 11 Unsafe_Park appears to have a C++ decorated name
        { s with _original_Unsafe_Park := vm.findSymbol "_ZL11Unsafe_ParkP7JNIEnv_P8_jobjecthl" }
      else s
    else s
  -- Intercept Unsafe.park() for tracing contended ReentrantLocks
  let s :=
    if s._original_Unsafe_Park ≠ none then bindUnsafePark vm s UnsafeParkFunc.UnsafeParkTrap
    else s
  (Error.OK, s)

/-- Lines 64-74, `LockTracer::stop`. -/
def stop (vm : JVM) (s : State) : State :=
  -- Disable Java Monitor events
  let s := SetEventNotificationMode s false jvmtiEvent.JVMTI_EVENT_MONITOR_CONTENDED_ENTER
  let s := SetEventNotificationMode s false jvmtiEvent.JVMTI_EVENT_MONITOR_CONTENDED_ENTERED
  -- Reset Unsafe.park() trap
  match s._original_Unsafe_Park with
  | some original => bindUnsafePark vm s original
  | none => s

/-- Lines 139-146, `LockTracer::recordContendedLock`. -/
def recordContendedLock (vm : JVM) (s : State) (lock_class : jclass) (time : jlong) : State :=
  if s._supports_lock_names then
    let lock_name := vm.klass_name lock_class
    recordSample s none time EventType.BCI_SYMBOL (some lock_name)
  else
    recordSample s none time EventType.BCI_SYMBOL none

/-- Lines 76-80, `LockTracer::MonitorContendedEnter`. -/
def MonitorContendedEnter (vm : JVM) (s : State) (thread : jthread) (_object : jobject) : State :=
  let (enter_time, s) := GetTime vm s
  SetTag s thread enter_time

/-- Lines 82-91, `LockTracer::MonitorContendedEntered`. -/
def MonitorContendedEntered (vm : JVM) (s : State) (thread : jthread) (object : jobject) : State :=
  let (entered_time, s) := GetTime vm s
  let enter_time := GetTag s thread
  -- Time is meaningless if lock attempt has started before profiling
  if enter_time ≥ s._start_time then
    recordContendedLock vm s (vm.GetObjectClass object) (jlong_sub entered_time enter_time)
  else s

/-- Lines 110-137, `LockTracer::getParkBlockerClass`. -/
def getParkBlockerClass (vm : JVM) (s : State) : Option jclass :=
  match vm.GetCurrentThread with
  | none => none
  | some thread =>
    -- Call LockSupport.getBlocker(Thread.currentThread())
    match vm.CallStaticObjectMethod s._LockSupport s._getBlocker thread with
    | none => none
    | some park_blocker =>
      let lock_class := vm.GetObjectClass park_blocker
      match vm.GetClassSignature lock_class with
      | none => none
      | some class_name =>
        -- Do not count synchronizers other than ReentrantLock, ReentrantReadWriteLock and Semaphore
        if strncmp class_name (cstr "Ljava/util/concurrent/locks/ReentrantLock") 41 ≠ 0 ∧
           strncmp class_name (cstr "Ljava/util/concurrent/locks/ReentrantReadWriteLock") 50 ≠ 0 ∧
           strncmp class_name (cstr "Ljava/util/concurrent/Semaphore") 31 ≠ 0 then
          none
        else some lock_class

/-- The call `_original_Unsafe_Park(env, instance, isAbsolute, time)` of line
102.  A call through a NULL pointer does not return; neither does the trap
calling itself, which recurses without bound. -/
def call_original_Unsafe_Park (s : State) (instance_ : jobject) (isAbsolute : Bool)
    (time : jlong) : Except Fault State :=
  match s._original_Unsafe_Park with
  | none => Except.error Fault.null_call
  | some UnsafeParkFunc.UnsafeParkTrap => Except.error Fault.unbounded_recursion
  | some (UnsafeParkFunc.code addr) =>
    Except.ok (callPark s (UnsafeParkFunc.code addr) instance_ isAbsolute time)

/-- Lines 93-108, `LockTracer::UnsafeParkTrap`.  The variable `park_start_time`
is left uninitialised by the source when `lock_class` is NULL and is not read
on that path; it is 0 here. -/
def UnsafeParkTrap (vm : JVM) (s : State) (instance_ : jobject) (isAbsolute : Bool)
    (time : jlong) : Except Fault State :=
  let lock_class := getParkBlockerClass vm s
  let (park_start_time, s) :=
    if lock_class ≠ none then GetTime vm s else ((0 : jlong), s)
  match call_original_Unsafe_Park s instance_ isAbsolute time with
  | Except.error f => Except.error f
  | Except.ok s =>
    match lock_class with
    | some cls =>
      let (park_end_time, s) := GetTime vm s
      Except.ok (recordContendedLock vm s cls (jlong_sub park_end_time park_start_time))
    | none => Except.ok s

/-- A Java thread calling `Unsafe.park` of class `cls`: the JVM runs the native
implementation currently registered for it. -/
def Unsafe_park (vm : JVM) (s : State) (cls : jclass) (instance_ : jobject) (isAbsolute : Bool)
    (time : jlong) : Except Fault State :=
  match s.natives cls with
  | UnsafeParkFunc.UnsafeParkTrap => UnsafeParkTrap vm s instance_ isAbsolute time
  | UnsafeParkFunc.code addr =>
    Except.ok (callPark s (UnsafeParkFunc.code addr) instance_ isAbsolute time)

/-! ## Observations on traces and runs -/

/-- The calls of `Profiler::recordSample` in a trace, in order. -/
def samples (tr : List Call) : List Call :=
  tr.filter fun c => match c with
    | Call.recordSample _ _ _ _ => true
    | _ => false

/-- The invocations of a native park implementation in a trace, in order. -/
def parkCalls (tr : List Call) : List Call :=
  tr.filter fun c => match c with
    | Call.park _ _ _ _ => true
    | _ => false

/-- The JNI calls that `bindUnsafePark` makes, in a trace. -/
def bindCalls (tr : List Call) : List Call :=
  tr.filter fun c => match c with
    | Call.FindClass name => name = "jdk/internal/misc/Unsafe" ∨ name = "sun/misc/Unsafe"
    | Call.RegisterNatives _ _ => true
    | Call.ExceptionClear => true
    | _ => false

/-- The original park implementation as `start()` resolves it (lines 49-53):
the symbol `Unsafe_Park`, else its C++ decorated name. -/
def lookupOriginal (vm : JVM) : Option UnsafeParkFunc :=
  match vm.findSymbol "Unsafe_Park" with
  | some f => some f
  | none => vm.findSymbol "_ZL11Unsafe_ParkP7JNIEnv_P8_jobjecthl"

/-- The class that holds `park` as `bindUnsafePark` resolves it (lines
152-153). -/
def lookupHolder (vm : JVM) : Option jclass :=
  match vm.FindClass "jdk/internal/misc/Unsafe" with
  | some c => some c
  | none => vm.FindClass "sun/misc/Unsafe"

/-- A call of the lifecycle driver. -/
inductive Op
  | start (args : Arguments)
  | stop
  deriving DecidableEq, Repr

/-- One lifecycle call. -/
def step (vm : JVM) (s : State) : Op → State
  | Op.start args => (start vm s args).2
  | Op.stop => stop vm s

/-- A finite sequence of `start()` and `stop()` calls, left to right. -/
def run (vm : JVM) (s : State) (ops : List Op) : State :=
  ops.foldl (step vm) s

/-! ## Concrete environments and states -/

/-- A JDK 9+ JVM in which both symbol and class lookup succeed: the timer reads
100, 350, 600, ...; the current thread 1 is parked on object 5, an instance of
`Semaphore.NonfairSync`. -/
def demoJVM : JVM where
  clock := fun k => 100 + 250 * (k : Int)
  GetCurrentThread := some 1
  CallStaticObjectMethod := fun _ _ _ => some 5
  GetObjectClass := fun o => o + 10
  GetClassSignature := fun c =>
    if c = 15 then some (cstr "Ljava/util/concurrent/Semaphore$NonfairSync;")
    else some (cstr "Lcom/foo/Bar;")
  FindClass := fun name =>
    if name = "jdk/internal/misc/Unsafe" then some 7
    else if name = "java/util/concurrent/locks/LockSupport" then some 8
    else none
  GetStaticMethodID := fun _ _ _ => some 3
  findSymbol := fun name => if name = "Unsafe_Park" then some (UnsafeParkFunc.code 4096) else none
  VMStructs_available := true
  VMStructs_hasPermGen := false
  klass_name := fun c => c + 1000

/-- The same JVM, except that neither candidate symbol name resolves. -/
def degradedJVM : JVM :=
  { demoJVM with findSymbol := fun _ => none }

/-- The state at program start of a JVM whose own park implementation is the
code at address 4096 and in which no event is enabled. -/
def demoState : State :=
  State.init (fun _ => UnsafeParkFunc.code 4096) (fun _ => false)

/-- A JVM whose timer counts from an origin in the future, as JVMTI allows:
it reads -1000, -750, -500, ... -/
def earlyJVM : JVM :=
  { demoJVM with clock := fun k => -1000 + 250 * (k : Int) }

/-- Thread 1 has begun to wait for the monitor of object 5 at time 100, before
any session. -/
def waitingState : State := MonitorContendedEnter demoJVM demoState 1 5

/-- A session started at time 350, while thread 1 is still waiting. -/
def lateSession : State := (start demoJVM waitingState Arguments.mk).2

/-- A session started at time 100 in `demoJVM`. -/
def demoSession : State := (start demoJVM demoState Arguments.mk).2

/-- A session started at time -1000 in `earlyJVM`. -/
def earlySession : State := (start earlyJVM demoState Arguments.mk).2

/-- A JVM whose timer steps backwards: it reads 350, 100, -150, ... -/
def backwardsJVM : JVM :=
  { demoJVM with clock := fun k => 350 - 250 * (k : Int) }

/-- A JVM whose timer never steps backwards and stays in the range of a
`jlong`: it reads -2^62 twice and 2^62 from then on. -/
def farJVM : JVM :=
  { demoJVM with clock := fun k => if k < 2 then -4611686018427387904 else 4611686018427387904 }

/-- A session started at time -2^62 in `farJVM`. -/
def farSession : State := (start farJVM demoState Arguments.mk).2

/-! ## The allow-list filter of `getParkBlockerClass` -/

/-- Comparing against a literal without NUL bytes over exactly its length:
`strncmp` returns 0 exactly when the string begins with the literal. -/
theorem strncmp_eq_zero_iff (p : List Nat) (hp : ∀ c ∈ p, c ≠ 0) (s : List Nat) :
    strncmp s p p.length = 0 ↔ p <+: s := by
  induction p generalizing s with
  | nil => simp [strncmp]
  | cons a p ih =>
    have ha : a ≠ 0 := hp a (List.mem_cons_self a p)
    have hp2 : ∀ c ∈ p, c ≠ 0 := fun c hc => hp c (List.mem_cons_of_mem a hc)
    cases s with
    | nil =>
      have h0 : ¬ (0 = a) := fun h => ha h.symm
      simp [strncmp, h0, ha]
    | cons b t =>
      by_cases hba : b = a
      · subst hba
        simp [strncmp, ha, ih hp2 t, List.cons_prefix_cons]
      · have hsub : (b : Int) - (a : Int) ≠ 0 := by
          intro h
          apply hba
          omega
        have hab : ¬ (a = b) := fun h => hba h.symm
        simp [strncmp, hba, hab, hsub, List.cons_prefix_cons]

theorem cstr_ReentrantLock :
    (cstr "Ljava/util/concurrent/locks/ReentrantLock").length = 41 ∧
    ∀ c ∈ cstr "Ljava/util/concurrent/locks/ReentrantLock", c ≠ 0 := by
  decide

theorem cstr_ReentrantReadWriteLock :
    (cstr "Ljava/util/concurrent/locks/ReentrantReadWriteLock").length = 50 ∧
    ∀ c ∈ cstr "Ljava/util/concurrent/locks/ReentrantReadWriteLock", c ≠ 0 := by
  decide

theorem cstr_Semaphore :
    (cstr "Ljava/util/concurrent/Semaphore").length = 31 ∧
    ∀ c ∈ cstr "Ljava/util/concurrent/Semaphore", c ≠ 0 := by
  decide

/-- C3: when the current thread, its park blocker and the blocker's class
signature are obtainable, `getParkBlockerClass` returns a class (the blocker's
class) exactly when the signature begins with one of the three literals, whose
lengths are the compared lengths 41, 50 and 31; every other signature gives
NULL, and so does every signature shorter than 31 bytes. -/
theorem getParkBlockerClass_ne_none_iff (vm : JVM) (s : State) (thread : jthread)
    (park_blocker : jobject) (class_name : List Nat)
    (hthread : vm.GetCurrentThread = some thread)
    (hblocker : vm.CallStaticObjectMethod s._LockSupport s._getBlocker thread = some park_blocker)
    (hsig : vm.GetClassSignature (vm.GetObjectClass park_blocker) = some class_name) :
    ((cstr "Ljava/util/concurrent/locks/ReentrantLock").length = 41 ∧
     (cstr "Ljava/util/concurrent/locks/ReentrantReadWriteLock").length = 50 ∧
     (cstr "Ljava/util/concurrent/Semaphore").length = 31) ∧
    (getParkBlockerClass vm s ≠ none ↔
      (cstr "Ljava/util/concurrent/locks/ReentrantLock" <+: class_name ∨
       cstr "Ljava/util/concurrent/locks/ReentrantReadWriteLock" <+: class_name ∨
       cstr "Ljava/util/concurrent/Semaphore" <+: class_name)) ∧
    (getParkBlockerClass vm s = none ∨
      getParkBlockerClass vm s = some (vm.GetObjectClass park_blocker)) ∧
    (class_name.length < 31 → getParkBlockerClass vm s = none) := by
  have h1 := strncmp_eq_zero_iff _ cstr_ReentrantLock.2 class_name
  have h2 := strncmp_eq_zero_iff _ cstr_ReentrantReadWriteLock.2 class_name
  have h3 := strncmp_eq_zero_iff _ cstr_Semaphore.2 class_name
  have l1 := cstr_ReentrantLock.1
  have l2 := cstr_ReentrantReadWriteLock.1
  have l3 := cstr_Semaphore.1
  rw [l1] at h1
  rw [l2] at h2
  rw [l3] at h3
  have hiff : getParkBlockerClass vm s ≠ none ↔
      (cstr "Ljava/util/concurrent/locks/ReentrantLock" <+: class_name ∨
       cstr "Ljava/util/concurrent/locks/ReentrantReadWriteLock" <+: class_name ∨
       cstr "Ljava/util/concurrent/Semaphore" <+: class_name) := by
    simp only [getParkBlockerClass, hthread, hblocker, hsig]
    rw [← h1, ← h2, ← h3]
    generalize strncmp class_name (cstr "Ljava/util/concurrent/locks/ReentrantLock") 41 = r1
    generalize
      strncmp class_name (cstr "Ljava/util/concurrent/locks/ReentrantReadWriteLock") 50 = r2
    generalize strncmp class_name (cstr "Ljava/util/concurrent/Semaphore") 31 = r3
    by_cases c1 : r1 = 0
    · simp [c1]
    · by_cases c2 : r2 = 0
      · simp [c2]
      · by_cases c3 : r3 = 0
        · simp [c3]
        · simp [c1, c2, c3]
  refine ⟨⟨l1, l2, l3⟩, hiff, ?_, ?_⟩
  · simp only [getParkBlockerClass, hthread, hblocker, hsig]
    split
    · exact Or.inl rfl
    · exact Or.inr rfl
  · intro hshort
    by_contra hne
    rcases hiff.mp hne with h | h | h
    · have := h.length_le
      rw [l1] at this
      omega
    · have := h.length_le
      rw [l2] at this
      omega
    · have := h.length_le
      rw [l3] at this
      omega

/-- A thread parked on a `Semaphore.NonfairSync` in `demoJVM`: the class 15 of
the blocker is returned. -/
theorem getParkBlockerClass_ne_none_iff_witness :
    getParkBlockerClass demoJVM demoState = some 15 ∧
    (getParkBlockerClass demoJVM demoState ≠ none ↔
      (cstr "Ljava/util/concurrent/locks/ReentrantLock" <+:
          cstr "Ljava/util/concurrent/Semaphore$NonfairSync;" ∨
       cstr "Ljava/util/concurrent/locks/ReentrantReadWriteLock" <+:
          cstr "Ljava/util/concurrent/Semaphore$NonfairSync;" ∨
       cstr "Ljava/util/concurrent/Semaphore" <+:
          cstr "Ljava/util/concurrent/Semaphore$NonfairSync;")) :=
  ⟨by decide,
   (getParkBlockerClass_ne_none_iff demoJVM demoState 1 5
      (cstr "Ljava/util/concurrent/Semaphore$NonfairSync;") rfl rfl rfl).2.1⟩

/-! ## The contention recorder and the monitor events -/

/-- A difference that fits a `jlong` is not changed by the machine subtraction. -/
theorem jlong_sub_eq (a b : jlong) (h0 : 0 ≤ a - b) (h1 : a - b < 2 ^ 63) :
    jlong_sub a b = a - b := by
  unfold jlong_sub wrap64
  unfold jlong at *
  omega

theorem samples_append (xs ys : List Call) : samples (xs ++ ys) = samples xs ++ samples ys := by
  simp [samples]

theorem parkCalls_append (xs ys : List Call) :
    parkCalls (xs ++ ys) = parkCalls xs ++ parkCalls ys := by
  simp [parkCalls]

theorem bindCalls_append (xs ys : List Call) :
    bindCalls (xs ++ ys) = bindCalls xs ++ bindCalls ys := by
  simp [bindCalls]

theorem recordContendedLock_trace (vm : JVM) (s : State) (lock_class : jclass) (time : jlong) :
    (recordContendedLock vm s lock_class time).trace =
      s.trace ++ [Call.recordSample none time EventType.BCI_SYMBOL
        (if s._supports_lock_names then some (vm.klass_name lock_class) else none)] := by
  unfold recordContendedLock recordSample
  split_ifs <;> rfl

theorem bindUnsafePark_natives (vm : JVM) (s : State) (entry : UnsafeParkFunc) :
    (bindUnsafePark vm s entry).natives =
      match lookupHolder vm with
      | some c => Function.update s.natives c entry
      | none => s.natives := by
  unfold bindUnsafePark lookupHolder FindClass ExceptionClear RegisterNatives
  cases h1 : vm.FindClass "jdk/internal/misc/Unsafe" <;>
    cases h2 : vm.FindClass "sun/misc/Unsafe" <;> simp [h1, h2]

theorem bindUnsafePark_statics (vm : JVM) (s : State) (entry : UnsafeParkFunc) :
    (bindUnsafePark vm s entry)._original_Unsafe_Park = s._original_Unsafe_Park ∧
    (bindUnsafePark vm s entry)._start_time = s._start_time ∧
    (bindUnsafePark vm s entry)._supports_lock_names = s._supports_lock_names ∧
    (bindUnsafePark vm s entry)._LockSupport = s._LockSupport ∧
    (bindUnsafePark vm s entry)._getBlocker = s._getBlocker ∧
    (bindUnsafePark vm s entry).eventMode = s.eventMode ∧
    (bindUnsafePark vm s entry).tags = s.tags ∧
    (bindUnsafePark vm s entry).reads = s.reads := by
  unfold bindUnsafePark FindClass ExceptionClear RegisterNatives
  cases h1 : vm.FindClass "jdk/internal/misc/Unsafe" <;>
    cases h2 : vm.FindClass "sun/misc/Unsafe" <;> simp [h1, h2]

theorem start_supports_lock_names (vm : JVM) (s : State) (args : Arguments) :
    (start vm s args).2._supports_lock_names =
      (vm.VMStructs_available && !vm.VMStructs_hasPermGen) := by
  simp only [start, SetEventNotificationMode, GetTime, FindClass]
  split_ifs <;> simp [bindUnsafePark_statics]

/-- C8: `recordContendedLock` makes exactly one call of `recordSample`, with
context NULL, kind `BCI_SYMBOL` and the duration it was given; the payload is
the resolved name of the class when `_supports_lock_names` is true and NULL
when it is false, and `start()` sets `_supports_lock_names` to
`VMStructs::available() && !VMStructs::hasPermGen()`. -/
theorem recordContendedLock_records_once (vm : JVM) (s s0 : State) (lock_class : jclass)
    (time : jlong) (args : Arguments) :
    (recordContendedLock vm s lock_class time).trace =
      s.trace ++ [Call.recordSample none time EventType.BCI_SYMBOL
        (if s._supports_lock_names then some (vm.klass_name lock_class) else none)] ∧
    samples (recordContendedLock vm s lock_class time).trace =
      samples s.trace ++ [Call.recordSample none time EventType.BCI_SYMBOL
        (if s._supports_lock_names then some (vm.klass_name lock_class) else none)] ∧
    (start vm s0 args).2._supports_lock_names =
      (vm.VMStructs_available && !vm.VMStructs_hasPermGen) := by
  refine ⟨recordContendedLock_trace vm s lock_class time, ?_, start_supports_lock_names vm s0 args⟩
  rw [recordContendedLock_trace, samples_append]
  rfl

theorem MonitorContendedEnter_tags (vm : JVM) (s : State) (thread : jthread) (object : jobject) :
    (MonitorContendedEnter vm s thread object).tags =
      Function.update s.tags thread (vm.clock s.reads) := rfl

theorem MonitorContendedEntered_trace (vm : JVM) (s : State) (thread : jthread)
    (object : jobject) :
    (MonitorContendedEntered vm s thread object).trace =
      if s.tags thread ≥ s._start_time then
        s.trace ++ [Call.GetTime (vm.clock s.reads),
          Call.recordSample none (jlong_sub (vm.clock s.reads) (s.tags thread))
            EventType.BCI_SYMBOL
            (if s._supports_lock_names then some (vm.klass_name (vm.GetObjectClass object))
             else none)]
      else s.trace ++ [Call.GetTime (vm.clock s.reads)] := by
  simp only [MonitorContendedEntered, GetTime, GetTag, recordContendedLock, recordSample]
  split_ifs <;> simp

/-- C1, as the code has it: a contended-monitor event pair on one thread.
`MonitorContendedEnter` stores the timer value `enter` it reads as the thread's
tag; when `MonitorContendedEntered` later runs with that tag still in place and
reads the timer value `entered`, and `enter >= _start_time`, exactly one sample
is recorded, whose duration is the 64-bit two's-complement difference of
`entered` and `enter`.  When moreover `enter <= entered` and
`entered - enter < 2^63`, that duration equals `entered - enter` and is not
negative. -/
theorem MonitorContendedEntered_records_wait (vm : JVM) (s0 s1 : State) (thread : jthread)
    (object : jobject)
    (htag : s1.tags thread = (MonitorContendedEnter vm s0 thread object).tags thread)
    (hstart : vm.clock s0.reads ≥ s1._start_time) :
    (MonitorContendedEnter vm s0 thread object).tags thread = vm.clock s0.reads ∧
    samples (MonitorContendedEntered vm s1 thread object).trace =
      samples s1.trace ++
        [Call.recordSample none (jlong_sub (vm.clock s1.reads) (vm.clock s0.reads))
          EventType.BCI_SYMBOL
          (if s1._supports_lock_names then some (vm.klass_name (vm.GetObjectClass object))
           else none)] ∧
    (vm.clock s0.reads ≤ vm.clock s1.reads →
      vm.clock s1.reads - vm.clock s0.reads < 2 ^ 63 →
        jlong_sub (vm.clock s1.reads) (vm.clock s0.reads) =
          vm.clock s1.reads - vm.clock s0.reads ∧
        0 ≤ jlong_sub (vm.clock s1.reads) (vm.clock s0.reads)) := by
  have henter : (MonitorContendedEnter vm s0 thread object).tags thread = vm.clock s0.reads := by
    simp [MonitorContendedEnter_tags]
  rw [henter] at htag
  refine ⟨henter, ?_, ?_⟩
  · rw [MonitorContendedEntered_trace, htag, if_pos hstart, samples_append]
    rfl
  · intro hlater hfit
    have hnonneg : 0 ≤ vm.clock s1.reads - vm.clock s0.reads := by
      unfold jlong at *
      omega
    have heq := jlong_sub_eq _ _ hnonneg hfit
    exact ⟨heq, heq ▸ hnonneg⟩

/-- C2: a contended-monitor event pair on one thread whose enter timestamp, the
thread's tag, is smaller than `_start_time`: `MonitorContendedEntered` only
reads the timer and records no sample. -/
theorem MonitorContendedEntered_skips_stale_wait (vm : JVM) (s0 s1 : State) (thread : jthread)
    (object : jobject)
    (htag : s1.tags thread = (MonitorContendedEnter vm s0 thread object).tags thread)
    (hstart : vm.clock s0.reads < s1._start_time) :
    (MonitorContendedEntered vm s1 thread object).trace =
      s1.trace ++ [Call.GetTime (vm.clock s1.reads)] ∧
    samples (MonitorContendedEntered vm s1 thread object).trace = samples s1.trace := by
  have henter : (MonitorContendedEnter vm s0 thread object).tags thread = vm.clock s0.reads := by
    simp [MonitorContendedEnter_tags]
  rw [henter] at htag
  have hno : ¬ (vm.clock s0.reads ≥ s1._start_time) := not_le.mpr hstart
  rw [MonitorContendedEntered_trace, htag, if_neg hno, samples_append]
  exact ⟨rfl, by simp [samples]⟩

/-- Thread 1 waits from 100 to 350 with `_start_time` 0: one sample of
duration 250. -/
theorem MonitorContendedEntered_records_wait_witness :
    demoState._start_time = 0 ∧ waitingState.tags 1 = 100 ∧
    samples (MonitorContendedEntered demoJVM waitingState 1 5).trace =
      [Call.recordSample none 250 EventType.BCI_SYMBOL none] ∧
    (jlong_sub (demoJVM.clock waitingState.reads) (demoJVM.clock demoState.reads) = 250 ∧
      0 ≤ jlong_sub (demoJVM.clock waitingState.reads) (demoJVM.clock demoState.reads)) :=
  ⟨rfl, by decide,
   (MonitorContendedEntered_records_wait demoJVM demoState waitingState 1 5 rfl
      (by decide)).2.1,
   (MonitorContendedEntered_records_wait demoJVM demoState waitingState 1 5 rfl
      (by decide)).2.2 (by decide) (by decide)⟩

/-- C1 fails as stated.  With a timer that steps back from 350 to 100 the pair
of thread 1 passes the guard (350 >= 0) and its sample has duration -250.  With
a timer that never steps back, in the session started at -2^62, thread 1
enters at -2^62 and has entered at 2^62: the guard passes and the sample has
duration -2^63, neither `entered - enter` = 2^63 nor non-negative. -/
theorem recorded_wait_may_be_negative :
    (demoState._start_time = 0 ∧
      GetTag (MonitorContendedEnter backwardsJVM demoState 1 5) 1 = 350 ∧
      samples (MonitorContendedEntered backwardsJVM
        (MonitorContendedEnter backwardsJVM demoState 1 5) 1 5).trace =
        [Call.recordSample none (-250) EventType.BCI_SYMBOL none]) ∧
    (farSession._start_time = -4611686018427387904 ∧
      GetTag (MonitorContendedEnter farJVM farSession 1 5) 1 = -4611686018427387904 ∧
      farJVM.clock (MonitorContendedEnter farJVM farSession 1 5).reads = 4611686018427387904 ∧
      samples (MonitorContendedEntered farJVM
        (MonitorContendedEnter farJVM farSession 1 5) 1 5).trace =
        [Call.recordSample none (-9223372036854775808) EventType.BCI_SYMBOL (some 1015)]) := by
  decide

/-- Thread 1 began to wait at 100, the session started at 350, the wait ended
at 600: no sample. -/
theorem MonitorContendedEntered_skips_stale_wait_witness :
    lateSession._start_time = 350 ∧ lateSession.tags 1 = 100 ∧
    samples (MonitorContendedEntered demoJVM lateSession 1 5).trace = [] :=
  ⟨by decide, by decide,
   (MonitorContendedEntered_skips_stale_wait demoJVM demoState lateSession 1 5
      (by decide) (by decide)).2.trans (by decide)⟩

/-- C9, as the code has it: `MonitorContendedEnter` sets the tag of the thread
to the timer value it reads and leaves every other tag alone, and
`MonitorContendedEntered` reads the tag without changing any tag, so
immediately after it returns the tag of the thread is still the timer value
that the preceding `MonitorContendedEnter` stored; it is not cleared. -/
theorem MonitorContendedEntered_keeps_tags (vm : JVM) (s : State) (thread : jthread)
    (object : jobject) :
    (MonitorContendedEnter vm s thread object).tags =
      Function.update s.tags thread (vm.clock s.reads) ∧
    GetTag (MonitorContendedEnter vm s thread object) thread = vm.clock s.reads ∧
    (MonitorContendedEntered vm s thread object).tags = s.tags ∧
    GetTag (MonitorContendedEntered vm (MonitorContendedEnter vm s thread object) thread object)
      thread = vm.clock s.reads := by
  have h : ∀ s1 : State, (MonitorContendedEntered vm s1 thread object).tags = s1.tags := by
    intro s1
    simp only [MonitorContendedEntered, GetTime, GetTag, recordContendedLock, recordSample]
    split_ifs <;> rfl
  refine ⟨rfl, ?_, h s, ?_⟩
  · simp [GetTag, MonitorContendedEnter_tags]
  · simp [GetTag, h, MonitorContendedEnter_tags]

/-- C9 fails as stated: thread 1 enters at 100 and has entered at 350, and its
tag is still 100, not cleared, after `MonitorContendedEntered` has returned. -/
theorem MonitorContendedEntered_tag_not_cleared :
    GetTag (MonitorContendedEntered demoJVM (MonitorContendedEnter demoJVM demoState 1 5) 1 5) 1
      = 100 ∧
    GetTag (MonitorContendedEntered demoJVM (MonitorContendedEnter demoJVM demoState 1 5) 1 5) 1
      ≠ 0 := by
  decide

/-- C10, as the code has it: on a thread without a tag (the tag store reports
0) `MonitorContendedEntered` records no sample whenever `_start_time` is
positive; it only reads the timer. -/
theorem MonitorContendedEntered_untagged (vm : JVM) (s : State) (thread : jthread)
    (object : jobject) (htag : GetTag s thread = 0) (hstart : 0 < s._start_time) :
    (MonitorContendedEntered vm s thread object).trace =
      s.trace ++ [Call.GetTime (vm.clock s.reads)] ∧
    samples (MonitorContendedEntered vm s thread object).trace = samples s.trace := by
  unfold GetTag at htag
  have hno : ¬ ((0 : jlong) ≥ s._start_time) := not_le.mpr hstart
  rw [MonitorContendedEntered_trace, htag, if_neg hno, samples_append]
  exact ⟨rfl, by simp [samples]⟩

/-- A session started at time 100; thread 2 was never tagged: no sample. -/
theorem MonitorContendedEntered_untagged_witness :
    GetTag demoSession 2 = 0 ∧ demoSession._start_time = 100 ∧
    samples (MonitorContendedEntered demoJVM demoSession 2 5).trace = [] :=
  ⟨by decide, by decide,
   (MonitorContendedEntered_untagged demoJVM demoSession 2 5 (by decide) (by decide)).2.trans
     (by decide)⟩

/-- C10 fails as stated when `_start_time` is not positive.  Thread 2 has no
tag.  With `_start_time` still at its initialiser 0, and in a session whose
timer read -1000 at `start()`, `MonitorContendedEntered` records a sample whose
duration is computed from the entry time 0 that was never stored. -/
theorem untagged_thread_records_sample :
    (GetTag demoState 2 = 0 ∧ demoState._start_time = 0 ∧
      samples (MonitorContendedEntered demoJVM demoState 2 5).trace =
        [Call.recordSample none 100 EventType.BCI_SYMBOL none]) ∧
    (GetTag earlySession 2 = 0 ∧ earlySession._start_time = -1000 ∧
      samples (MonitorContendedEntered earlyJVM earlySession 2 5).trace =
        [Call.recordSample none (-750) EventType.BCI_SYMBOL (some 1015)]) := by
  decide

/-! ## The park trap -/

theorem start_original (vm : JVM) (s : State) (args : Arguments) :
    (start vm s args).2._original_Unsafe_Park =
      match s._original_Unsafe_Park with
      | some f => some f
      | none => lookupOriginal vm := by
  simp only [start, SetEventNotificationMode, GetTime, FindClass, lookupOriginal]
  cases h0 : s._original_Unsafe_Park <;> cases h1 : vm.findSymbol "Unsafe_Park" <;>
    cases h2 : vm.findSymbol "_ZL11Unsafe_ParkP7JNIEnv_P8_jobjecthl" <;>
    split_ifs <;> simp_all [bindUnsafePark_statics]

theorem start_natives (vm : JVM) (s : State) (args : Arguments) :
    (start vm s args).2.natives =
      match (start vm s args).2._original_Unsafe_Park, lookupHolder vm with
      | some _, some c => Function.update s.natives c UnsafeParkFunc.UnsafeParkTrap
      | _, _ => s.natives := by
  rw [start_original]
  simp only [start, SetEventNotificationMode, GetTime, FindClass, lookupOriginal]
  cases h0 : s._original_Unsafe_Park <;> cases h1 : vm.findSymbol "Unsafe_Park" <;>
    cases h2 : vm.findSymbol "_ZL11Unsafe_ParkP7JNIEnv_P8_jobjecthl" <;>
    cases h3 : lookupHolder vm <;>
    split_ifs <;> simp_all [bindUnsafePark_statics, bindUnsafePark_natives]

theorem start_eventMode (vm : JVM) (s : State) (args : Arguments) :
    (start vm s args).2.eventMode =
      Function.update
        (Function.update s.eventMode jvmtiEvent.JVMTI_EVENT_MONITOR_CONTENDED_ENTER true)
        jvmtiEvent.JVMTI_EVENT_MONITOR_CONTENDED_ENTERED true := by
  simp only [start, SetEventNotificationMode, GetTime, FindClass]
  split_ifs <;> simp [bindUnsafePark_statics]

theorem stop_original (vm : JVM) (s : State) :
    (stop vm s)._original_Unsafe_Park = s._original_Unsafe_Park := by
  simp only [stop, SetEventNotificationMode]
  cases h0 : s._original_Unsafe_Park <;> simp [bindUnsafePark_statics, h0]

theorem stop_natives (vm : JVM) (s : State) :
    (stop vm s).natives =
      match s._original_Unsafe_Park, lookupHolder vm with
      | some f, some c => Function.update s.natives c f
      | _, _ => s.natives := by
  simp only [stop, SetEventNotificationMode]
  cases h0 : s._original_Unsafe_Park <;> cases h3 : lookupHolder vm <;>
    simp [bindUnsafePark_natives, h0, h3]

theorem start_trace_without_original (vm : JVM) (s : State) (args : Arguments)
    (h1 : vm.findSymbol "Unsafe_Park" = none)
    (h2 : vm.findSymbol "_ZL11Unsafe_ParkP7JNIEnv_P8_jobjecthl" = none)
    (hcached : s._original_Unsafe_Park = none) :
    (start vm s args).2.trace =
      s.trace ++ Call.GetTime (vm.clock s.reads) ::
        (if s._getBlocker = none then [Call.FindClass "java/util/concurrent/locks/LockSupport"]
         else []) := by
  simp only [start, SetEventNotificationMode, GetTime, FindClass]
  split_ifs <;> simp_all

theorem stop_trace_without_original (vm : JVM) (s : State)
    (hcached : s._original_Unsafe_Park = none) : (stop vm s).trace = s.trace := by
  simp [stop, SetEventNotificationMode, hcached]

/-- C5: in a state where the entry registered for `park` is the original
implementation that symbol lookup resolves (and the cache is empty or holds
that original), `start()` followed by `stop()` leaves the table of registered
entries as it was, so the registered entry is the original again. -/
theorem start_stop_restores_entry (vm : JVM) (s : State) (args : Arguments)
    (original : UnsafeParkFunc)
    (hlookup : lookupOriginal vm = some original)
    (hcached : s._original_Unsafe_Park = none ∨ s._original_Unsafe_Park = some original)
    (hentry : ∀ c, lookupHolder vm = some c → s.natives c = original) :
    (stop vm (start vm s args).2).natives = s.natives ∧
    (∀ c, lookupHolder vm = some c → (stop vm (start vm s args).2).natives c = original) := by
  have horig : (start vm s args).2._original_Unsafe_Park = some original := by
    rw [start_original]
    rcases hcached with h | h <;> simp [h, hlookup]
  have hnat : (stop vm (start vm s args).2).natives = s.natives := by
    rw [stop_natives, start_natives, horig]
    cases hc : lookupHolder vm with
    | none => rfl
    | some c =>
      simp only [Function.update_idem]
      rw [← hentry c hc]
      exact Function.update_eq_self c s.natives
  refine ⟨hnat, ?_⟩
  intro c hc
  rw [hnat]
  exact hentry c hc

/-- In `demoJVM` the entry of class 7 is the code at 4096 before `start()`,
the trap after it, and the code at 4096 again after `stop()`. -/
theorem start_stop_restores_entry_witness :
    lookupHolder demoJVM = some 7 ∧ demoState.natives 7 = UnsafeParkFunc.code 4096 ∧
    demoSession.natives 7 = UnsafeParkFunc.UnsafeParkTrap ∧
    (stop demoJVM (start demoJVM demoState Arguments.mk).2).natives = demoState.natives :=
  ⟨by decide, by decide, by decide,
   (start_stop_restores_entry demoJVM demoState Arguments.mk (UnsafeParkFunc.code 4096)
      (by decide) (Or.inl rfl) (fun _ _ => rfl)).1⟩

/-- C7: when both candidate symbol names fail to resolve, `start()` returns
`Error::OK` with both monitor-contended events enabled; the cache stays NULL,
neither `start()` nor a following `stop()` makes any of the JNI calls of
`bindUnsafePark`, the registered entries stay as they were, and a call of
`Unsafe.park` in that session does not run the trap and records no sample. -/
theorem start_without_original (vm : JVM) (s : State) (args : Arguments)
    (h1 : vm.findSymbol "Unsafe_Park" = none)
    (h2 : vm.findSymbol "_ZL11Unsafe_ParkP7JNIEnv_P8_jobjecthl" = none)
    (hcached : s._original_Unsafe_Park = none)
    (hclean : ∀ c, s.natives c ≠ UnsafeParkFunc.UnsafeParkTrap) :
    (start vm s args).1 = Error.OK ∧
    (start vm s args).2.eventMode jvmtiEvent.JVMTI_EVENT_MONITOR_CONTENDED_ENTER = true ∧
    (start vm s args).2.eventMode jvmtiEvent.JVMTI_EVENT_MONITOR_CONTENDED_ENTERED = true ∧
    (start vm s args).2._original_Unsafe_Park = none ∧
    bindCalls (start vm s args).2.trace = bindCalls s.trace ∧
    bindCalls (stop vm (start vm s args).2).trace = bindCalls s.trace ∧
    (start vm s args).2.natives = s.natives ∧
    (stop vm (start vm s args).2).natives = s.natives ∧
    (∀ (c : jclass) (instance_ : jobject) (isAbsolute : Bool) (time : jlong),
      ∃ s1 : State,
        Unsafe_park vm (start vm s args).2 c instance_ isAbsolute time = Except.ok s1 ∧
        samples s1.trace = samples (start vm s args).2.trace) := by
  have horig : (start vm s args).2._original_Unsafe_Park = none := by
    rw [start_original]
    simp [hcached, lookupOriginal, h1, h2]
  have hnat : (start vm s args).2.natives = s.natives := by
    rw [start_natives, horig]
  have htrace : bindCalls (start vm s args).2.trace = bindCalls s.trace := by
    rw [start_trace_without_original vm s args h1 h2 hcached, bindCalls_append]
    split_ifs <;> simp [bindCalls]
  refine ⟨rfl, ?_, ?_, horig, htrace, ?_, hnat, ?_, ?_⟩
  · rw [start_eventMode]
    simp
  · rw [start_eventMode]
    simp
  · rw [stop_trace_without_original vm _ horig, htrace]
  · rw [stop_natives, horig, hnat]
  · intro c instance_ isAbsolute time
    unfold Unsafe_park
    rw [hnat]
    cases hc : s.natives c with
    | UnsafeParkTrap => exact absurd hc (hclean c)
    | code addr =>
      exact ⟨_, rfl, by simp [callPark, samples]⟩

/-- In `degradedJVM` neither symbol resolves: `start()` succeeds, the events are
on, and parking through class 7 records nothing. -/
theorem start_without_original_witness :
    degradedJVM.findSymbol "Unsafe_Park" = none ∧
    degradedJVM.findSymbol "_ZL11Unsafe_ParkP7JNIEnv_P8_jobjecthl" = none ∧
    (start degradedJVM demoState Arguments.mk).1 = Error.OK ∧
    (start degradedJVM demoState Arguments.mk).2.natives = demoState.natives ∧
    bindCalls (stop degradedJVM (start degradedJVM demoState Arguments.mk).2).trace = [] :=
  ⟨rfl, rfl,
   (start_without_original degradedJVM demoState Arguments.mk rfl rfl rfl
      (by simp [demoState, State.init])).1,
   (start_without_original degradedJVM demoState Arguments.mk rfl rfl rfl
      (by simp [demoState, State.init])).2.2.2.2.2.2.1,
   (start_without_original degradedJVM demoState Arguments.mk rfl rfl rfl
      (by simp [demoState, State.init])).2.2.2.2.2.1⟩

/-! ## Sequences of activations and deactivations -/

theorem run_append (vm : JVM) (s : State) (ops1 ops2 : List Op) :
    run vm s (ops1 ++ ops2) = run vm (run vm s ops1) ops2 := by
  simp [run, List.foldl_append]

theorem step_original_some (vm : JVM) (s : State) (op : Op) (f : UnsafeParkFunc)
    (h : s._original_Unsafe_Park = some f) : (step vm s op)._original_Unsafe_Park = some f := by
  cases op with
  | start args => simp [step, start_original, h]
  | stop => simp [step, stop_original, h]

theorem run_original_some (vm : JVM) (ops : List Op) (s : State) (f : UnsafeParkFunc)
    (h : s._original_Unsafe_Park = some f) : (run vm s ops)._original_Unsafe_Park = some f := by
  induction ops generalizing s with
  | nil => exact h
  | cons op ops ih => exact ih (step vm s op) (step_original_some vm s op f h)

theorem lookupOriginal_ne_trap (vm : JVM)
    (hsym : ∀ name, vm.findSymbol name ≠ some UnsafeParkFunc.UnsafeParkTrap)
    (f : UnsafeParkFunc) (h : lookupOriginal vm = some f) : f ≠ UnsafeParkFunc.UnsafeParkTrap := by
  intro hf
  subst hf
  unfold lookupOriginal at h
  cases h1 : vm.findSymbol "Unsafe_Park" with
  | some g =>
    rw [h1] at h
    exact hsym _ (h1.trans h)
  | none =>
    rw [h1] at h
    exact hsym _ h

theorem run_original_cases (vm : JVM) (ops : List Op) (s : State)
    (h : s._original_Unsafe_Park = none ∨ s._original_Unsafe_Park = lookupOriginal vm) :
    (run vm s ops)._original_Unsafe_Park = none ∨
      (run vm s ops)._original_Unsafe_Park = lookupOriginal vm := by
  induction ops generalizing s with
  | nil => exact h
  | cons op ops ih =>
    apply ih (step vm s op)
    cases op with
    | start args =>
      right
      rcases h with h | h
      · simp [step, start_original, h]
      · simp only [step, start_original, h]
        cases lookupOriginal vm <;> rfl
    | stop =>
      simp only [step, stop_original]
      exact h

theorem run_entry_invariant (vm : JVM) (original : UnsafeParkFunc) (c : jclass)
    (hlookup : lookupOriginal vm = some original) (ops : List Op) (s : State)
    (h : (s._original_Unsafe_Park = none ∧ s.natives c = original) ∨
      s._original_Unsafe_Park = some original) :
    ((run vm s ops)._original_Unsafe_Park = none ∧ (run vm s ops).natives c = original) ∨
      (run vm s ops)._original_Unsafe_Park = some original := by
  induction ops generalizing s with
  | nil => exact h
  | cons op ops ih =>
    apply ih (step vm s op)
    cases op with
    | start args =>
      right
      rcases h with ⟨h, _⟩ | h <;> simp [step, start_original, h, hlookup]
    | stop =>
      rcases h with ⟨h, hn⟩ | h
      · left
        exact ⟨by simp [step, stop_original, h], by simp [step, stop_natives, h, hn]⟩
      · right
        simp [step, stop_original, h]

theorem UnsafeParkTrap_parkCalls (vm : JVM) (s : State) (instance_ : jobject)
    (isAbsolute : Bool) (time : jlong) (addr : Nat)
    (horiginal : s._original_Unsafe_Park = some (UnsafeParkFunc.code addr)) :
    ∃ s1 : State,
      UnsafeParkTrap vm s instance_ isAbsolute time = Except.ok s1 ∧
      parkCalls s1.trace =
        parkCalls s.trace ++ [Call.park (UnsafeParkFunc.code addr) instance_ isAbsolute time] := by
  cases hcls : getParkBlockerClass vm s with
  | none =>
    refine ⟨callPark s (UnsafeParkFunc.code addr) instance_ isAbsolute time, ?_, ?_⟩
    · simp [UnsafeParkTrap, hcls, call_original_Unsafe_Park, horiginal]
    · simp [callPark, parkCalls]
  | some lock_class =>
    refine ⟨recordContendedLock vm
      (GetTime vm (callPark (GetTime vm s).2 (UnsafeParkFunc.code addr) instance_ isAbsolute
        time)).2 lock_class (jlong_sub (vm.clock (s.reads + 1)) (vm.clock s.reads)), ?_, ?_⟩
    · simp [UnsafeParkTrap, hcls, call_original_Unsafe_Park, horiginal, GetTime, callPark]
    · simp [recordContendedLock_trace, GetTime, callPark, parkCalls]

theorem run_natives_without_holder (vm : JVM) (hholder : lookupHolder vm = none)
    (ops : List Op) (s : State) : (run vm s ops).natives = s.natives := by
  induction ops generalizing s with
  | nil => rfl
  | cons op ops ih =>
    have hstep : (step vm s op).natives = s.natives := by
      cases op with
      | start args =>
        simp only [step, start_natives, hholder]
        cases (start vm s args).2._original_Unsafe_Park <;> rfl
      | stop =>
        simp only [step, stop_natives, hholder]
        cases s._original_Unsafe_Park <;> rfl
    exact (ih (step vm s op)).trans hstep

theorem run_natives_without_original (vm : JVM) (hlookup : lookupOriginal vm = none)
    (ops : List Op) (s : State) (hcached : s._original_Unsafe_Park = none) :
    (run vm s ops).natives = s.natives := by
  induction ops generalizing s with
  | nil => rfl
  | cons op ops ih =>
    have hstep : (step vm s op)._original_Unsafe_Park = none ∧
        (step vm s op).natives = s.natives := by
      cases op with
      | start args =>
        have horig : (start vm s args).2._original_Unsafe_Park = none := by
          simp [start_original, hcached, hlookup]
        exact ⟨horig, by simp only [step, start_natives, horig]⟩
      | stop =>
        exact ⟨by simp [step, stop_original, hcached],
          by simp only [step, stop_natives, hcached]⟩
    exact (ih (step vm s op) hstep.1).trans hstep.2

/-- C6, as the code has it.  Symbol and class lookup give the same results
throughout, symbol lookup never yields the trap itself, and the cache is empty
at first.  Along every finite sequence of `start()` and `stop()` calls the
cached `_original_Unsafe_Park`, once non-NULL, keeps its value and is not the
trap.  When symbol lookup resolves the original and the class holding `park` is
found, after every sequence ending in `start()` the registered entry is the
trap and the cache holds the original, so a call of `park` reaches the original
exactly once; when in addition the entry registered at first is that original,
after every sequence ending in `stop()` the registered entry is the original,
called directly.  When symbol lookup fails for both names, or neither class is
found, every sequence leaves the registered entries unchanged. -/
theorem start_stop_sequences (vm : JVM) (s0 : State)
    (hsym : ∀ name, vm.findSymbol name ≠ some UnsafeParkFunc.UnsafeParkTrap)
    (hfresh : s0._original_Unsafe_Park = none) :
    (∀ (ops1 ops2 : List Op) (f : UnsafeParkFunc),
      (run vm s0 ops1)._original_Unsafe_Park = some f →
        (run vm s0 (ops1 ++ ops2))._original_Unsafe_Park = some f ∧
        f ≠ UnsafeParkFunc.UnsafeParkTrap) ∧
    (∀ (original : UnsafeParkFunc) (c : jclass),
      lookupOriginal vm = some original → lookupHolder vm = some c →
        (∀ (ops : List Op) (args : Arguments),
          (run vm s0 (ops ++ [Op.start args])).natives c = UnsafeParkFunc.UnsafeParkTrap ∧
          (run vm s0 (ops ++ [Op.start args]))._original_Unsafe_Park = some original ∧
          ∀ (instance_ : jobject) (isAbsolute : Bool) (time : jlong),
            ∃ s1 : State,
              Unsafe_park vm (run vm s0 (ops ++ [Op.start args])) c instance_ isAbsolute time
                = Except.ok s1 ∧
              parkCalls s1.trace =
                parkCalls (run vm s0 (ops ++ [Op.start args])).trace ++
                  [Call.park original instance_ isAbsolute time]) ∧
        (s0.natives c = original →
          ∀ (ops : List Op),
            (run vm s0 (ops ++ [Op.stop])).natives c = original ∧
            ∀ (instance_ : jobject) (isAbsolute : Bool) (time : jlong),
              Unsafe_park vm (run vm s0 (ops ++ [Op.stop])) c instance_ isAbsolute time =
                Except.ok (callPark (run vm s0 (ops ++ [Op.stop])) original instance_
                  isAbsolute time))) ∧
    (lookupOriginal vm = none → ∀ ops : List Op, (run vm s0 ops).natives = s0.natives) ∧
    (lookupHolder vm = none → ∀ ops : List Op, (run vm s0 ops).natives = s0.natives) := by
  refine ⟨?_, ?_, ?_, ?_⟩
  · intro ops1 ops2 f hf
    refine ⟨?_, ?_⟩
    · rw [run_append]
      exact run_original_some vm ops2 _ f hf
    · rcases run_original_cases vm ops1 s0 (Or.inl hfresh) with h | h
      · rw [h] at hf
        cases hf
      · rw [h] at hf
        exact lookupOriginal_ne_trap vm hsym f hf
  · intro original c hlookup hholder
    have hne : original ≠ UnsafeParkFunc.UnsafeParkTrap :=
      lookupOriginal_ne_trap vm hsym original hlookup
    constructor
    · intro ops args
      have hcache := run_original_cases vm ops s0 (Or.inl hfresh)
      rw [hlookup] at hcache
      have horig : (run vm s0 (ops ++ [Op.start args]))._original_Unsafe_Park = some original := by
        rw [run_append]
        simp only [run, List.foldl, step, start_original]
        rcases hcache with h | h <;> simp only [run] at h <;> simp [h, hlookup]
      have hnat : (run vm s0 (ops ++ [Op.start args])).natives c
          = UnsafeParkFunc.UnsafeParkTrap := by
        have h2 := horig
        rw [run_append] at h2 ⊢
        simp only [run, List.foldl, step] at h2 ⊢
        rw [start_natives, h2, hholder]
        simp
      refine ⟨hnat, horig, ?_⟩
      intro instance_ isAbsolute time
      unfold Unsafe_park
      rw [hnat]
      cases original with
      | UnsafeParkTrap => exact absurd rfl hne
      | code addr => exact UnsafeParkTrap_parkCalls vm _ instance_ isAbsolute time addr horig
    · intro hentry ops
      have hinv := run_entry_invariant vm original c hlookup ops s0 (Or.inl ⟨hfresh, hentry⟩)
      have hnat : (run vm s0 (ops ++ [Op.stop])).natives c = original := by
        rw [run_append]
        simp only [run, List.foldl, step]
        rw [stop_natives, hholder]
        rcases hinv with ⟨h, hn⟩ | h <;> simp only [run] at h
        · simp only [run] at hn
          simp [h, hn]
        · simp [h]
      refine ⟨hnat, ?_⟩
      intro instance_ isAbsolute time
      unfold Unsafe_park
      rw [hnat]
      cases original with
      | UnsafeParkTrap => exact absurd rfl hne
      | code addr => rfl
  · intro hlookup ops
    exact run_natives_without_original vm hlookup ops s0 hfresh
  · intro hholder ops
    exact run_natives_without_holder vm hholder ops s0

theorem demoJVM_findSymbol_ne_trap (name : String) :
    demoJVM.findSymbol name ≠ some UnsafeParkFunc.UnsafeParkTrap := by
  simp only [demoJVM]
  split_ifs <;> simp

/-- In `demoJVM`, from the state at program start: after `start(); start()` the
entry of class 7 is the trap and the cache holds the code at 4096; after
`start(); stop(); start(); stop()` the entry is the code at 4096.  In
`degradedJVM` the sequence `start(); stop()` leaves every entry as it was. -/
theorem start_stop_sequences_witness :
    demoState._original_Unsafe_Park = none ∧
    lookupOriginal demoJVM = some (UnsafeParkFunc.code 4096) ∧
    lookupHolder demoJVM = some 7 ∧
    (run demoJVM demoState [Op.start Arguments.mk, Op.start Arguments.mk]).natives 7
      = UnsafeParkFunc.UnsafeParkTrap ∧
    (run demoJVM demoState
      [Op.start Arguments.mk, Op.start Arguments.mk])._original_Unsafe_Park
      = some (UnsafeParkFunc.code 4096) ∧
    (run demoJVM demoState
      [Op.start Arguments.mk, Op.stop, Op.start Arguments.mk, Op.stop]).natives 7
      = UnsafeParkFunc.code 4096 ∧
    (run degradedJVM demoState [Op.start Arguments.mk, Op.stop]).natives = demoState.natives :=
  ⟨rfl, by decide, by decide,
   (((start_stop_sequences demoJVM demoState demoJVM_findSymbol_ne_trap rfl).2.1
      (UnsafeParkFunc.code 4096) 7 (by decide) (by decide)).1
      [Op.start Arguments.mk] Arguments.mk).1,
   (((start_stop_sequences demoJVM demoState demoJVM_findSymbol_ne_trap rfl).2.1
      (UnsafeParkFunc.code 4096) 7 (by decide) (by decide)).1
      [Op.start Arguments.mk] Arguments.mk).2.1,
   (((start_stop_sequences demoJVM demoState demoJVM_findSymbol_ne_trap rfl).2.1
      (UnsafeParkFunc.code 4096) 7 (by decide) (by decide)).2 rfl
      [Op.start Arguments.mk, Op.stop, Op.start Arguments.mk]).1,
   (start_stop_sequences degradedJVM demoState (by simp [degradedJVM]) rfl).2.2.1
      (by decide) [Op.start Arguments.mk, Op.stop]⟩

/-- C6 fails as stated when symbol lookup fails: in `degradedJVM` the class
holding `park` is class 7, and after the one-call sequence `start()` its
registered entry is still the code at 4096, not the trap. -/
theorem start_may_leave_entry :
    lookupHolder degradedJVM = some 7 ∧
    (run degradedJVM demoState [Op.start Arguments.mk]).natives 7 = UnsafeParkFunc.code 4096 ∧
    (run degradedJVM demoState [Op.start Arguments.mk]).natives 7
      ≠ UnsafeParkFunc.UnsafeParkTrap := by
  decide

end LockTracer
